import Mathlib

/-!
Verification development for the logbook-convert flight-log formatter.

The Python sources (format.py, format_logbook_aero.py) are shallowly embedded
here.  Conventions:

* UTC instants are rationals counting minutes since an arbitrary epoch;
  a calendar date is the integer day index obtained by flooring an instant
  divided by 1440 (the model of datetime.date()).
* Python floats are modelled as rationals; Python round(x, n) is modelled as
  exact round-half-to-even at n decimal places.
* External collaborators (the airportsdata dataset, datetime.strptime,
  astral.sun, pytz utcoffset, datetime.now) are oracles collected in an Env
  structure; a None result of the sun oracle models the ValueError that
  astral raises at extreme latitudes, and a None result of the strptime
  oracle models its ValueError on unparseable input.
* A Python function that can let an exception escape is embedded with an
  Option (or Except) result, none modelling the escaped exception.
-/

namespace Logbook

/-- A cell value of a pandas row: a float, a string, Python None, or some
other non-string object (for example NaN); NaN itself is outside the model,
rationals standing in for floats. -/
inductive PyVal where
  | num (q : ℚ)
  | str (s : String)
  | pynone
  | other
deriving DecidableEq

/-- ASCII whitespace as Python str.strip removes it. -/
def pyWhitespace (c : Char) : Bool :=
  c == ' ' || c == '\t' || c == '\n' || c == '\r'

/-- Model of Python str.strip(): drop whitespace from both ends. -/
def pyStrip (s : String) : String :=
  String.mk (((s.data.dropWhile pyWhitespace).reverse.dropWhile pyWhitespace).reverse)

/-- Uppercase one ASCII letter, the character model of Python str.upper(). -/
def asciiUpperChar (c : Char) : Char :=
  if 'a' ≤ c ∧ c ≤ 'z' then Char.ofNat (c.toNat - 32) else c

/-- Model of Python str.upper() on the ASCII strings the repository uses. -/
def pyUpper (s : String) : String :=
  String.mk (s.data.map asciiUpperChar)

/-- Split a character list at every occurrence of the separator. -/
def splitOnCharAux (c : Char) : List Char → List Char → List (List Char)
  | [], acc => [acc.reverse]
  | x :: xs, acc =>
    if x = c then acc.reverse :: splitOnCharAux c xs []
    else splitOnCharAux c xs (x :: acc)

/-- Model of Python str.split(sep) with a one-character separator. -/
def pySplitChar (s : String) (c : Char) : List String :=
  (splitOnCharAux c s.data []).map String.mk

/-- Digits of a decimal literal read left to right, none when a non-digit
character occurs. -/
def digitsToNat (l : List Char) : Option ℕ :=
  l.foldl
    (fun acc c =>
      match acc with
      | none => none
      | some n => if c.isDigit then some (n * 10 + (c.toNat - 48)) else none)
    (some 0)

/-- Model of Python float(s) on a string: optional sign, then digits with an
optional fractional part (exponents and special values are outside the model;
the repository only converts plain decimal cells). -/
def parseDecimalQ (s : String) : Option ℚ :=
  let t := (pyStrip s).data
  let sgn : ℚ := if t.head? = some '-' then -1 else 1
  let u := if t.head? = some '-' ∨ t.head? = some '+' then t.drop 1 else t
  match splitOnCharAux '.' u [] with
  | [ip] =>
    if ip ≠ [] ∧ ip.all Char.isDigit then
      (digitsToNat ip).map (fun n => sgn * (n : ℚ))
    else none
  | [ip, fp] =>
    if (ip ≠ [] ∨ fp ≠ []) ∧ ip.all Char.isDigit ∧ fp.all Char.isDigit then
      match digitsToNat ip, digitsToNat fp with
      | some a, some b => some (sgn * ((a : ℚ) + (b : ℚ) / 10 ^ fp.length))
      | _, _ => none
    else none
  | _ => none

/-- safe_float_conversion (format.py line 530, format_logbook_aero.py line
515): None, the empty string and the literal dot give 0.0, a float is
returned as is, an unparseable string or a non-numeric object gives 0.0. -/
def safe_float_conversion (v : PyVal) : ℚ :=
  match v with
  | .pynone => 0
  | .str s => if s = "" ∨ s = "." then 0 else (parseDecimalQ s).getD 0
  | .num q => q
  | .other => 0

/-- Model of Python str() on a cell value (numeric cells are rendered with
Rat's printer; the repository only stringifies integral flight numbers, for
which the two printers agree). -/
def pyStrOf : PyVal → String
  | .str s => s
  | .num q => toString q
  | .pynone => "None"
  | .other => "nan"

/-- The malformed-time test of parse_time: a time cell is replaced by noon
when it is falsy, the literal dot, or not a string (format.py line 98). -/
def badTimeVal : PyVal → Bool
  | .str s => s == "" || s == "."
  | _ => true

/-- The LANDING-column test of process_landings (format.py line 271): the
crew member performed the landing when the cell equals 1 or the string 1. -/
def landingPerformed : PyVal → Bool
  | .num q => q == 1
  | .str s => s == "1"
  | _ => false

/-- Model of Python str.zfill: pad with leading zeros to the target width,
keeping a leading sign in place. -/
def pyZfill (s : String) (w : ℕ) : String :=
  if w ≤ s.data.length then s
  else
    match s.data with
    | '-' :: rest => String.mk ('-' :: (List.replicate (w - s.data.length) '0' ++ rest))
    | '+' :: rest => String.mk ('+' :: (List.replicate (w - s.data.length) '0' ++ rest))
    | l => String.mk (List.replicate (w - s.data.length) '0' ++ l)

/-- Model of Python int() on a string: optional surrounding whitespace, an
optional sign, then decimal digits. -/
def pyIntOfString (s : String) : Option ℤ :=
  match (pyStrip s).data with
  | [] => none
  | '-' :: rest =>
    if rest = [] then none else (digitsToNat rest).map (fun n => -(n : ℤ))
  | '+' :: rest =>
    if rest = [] then none else (digitsToNat rest).map (fun n => (n : ℤ))
  | l => (digitsToNat l).map (fun n => (n : ℤ))

/-- Round a rational to the nearest integer, ties to even: the semantics of
Python round() on the rational model of a float. -/
def roundHalfEven (q : ℚ) : ℤ :=
  if q - (Int.floor q : ℚ) < 1 / 2 then Int.floor q
  else if 1 / 2 < q - (Int.floor q : ℚ) then Int.floor q + 1
  else if Int.floor q % 2 = 0 then Int.floor q else Int.floor q + 1

/-- Model of Python round(x, prec) on the rational model of floats. -/
def pyRound (prec : ℕ) (q : ℚ) : ℚ :=
  (roundHalfEven (q * 10 ^ prec) : ℚ) / 10 ^ prec

/-- Geographic and timezone metadata of a resolved airport: the tuple
(name, tz, lat, lon) built by get_airport_data. -/
structure AirportInfo where
  name : String
  tz : String
  lat : ℚ
  lon : ℚ
deriving DecidableEq

/-- A raw record of the airportsdata dataset as get_airport_data consumes it:
each of tz, lat, lon is present or not, a none lat or lon also standing for a
value float() rejects (the except branch); name may be absent. -/
structure DbEntry where
  name : Option String
  tz : Option String
  lat : Option ℚ
  lon : Option ℚ
deriving DecidableEq

/-- The external collaborators of the engine, fixed for a batch run:
the airportsdata dataset, datetime.strptime (by format string), astral's
sun() (by latitude, longitude, day index and timezone name, none modelling
its ValueError), pytz's utcoffset in hours (by timezone name and instant),
and the current wall-clock instant. -/
structure Env where
  db : String → Option DbEntry
  strptime : String → String → Option ℚ
  sun : ℚ → ℚ → ℤ → String → Option (ℚ × ℚ)
  tzOffset : String → ℚ → ℚ
  now : ℚ

/-- One flight record: the raw-dataset columns the engine consumes. -/
structure Row where
  DEPT_DATE : String
  ORG : String
  DEST : String
  OFF : PyVal
  ON : PyVal
  FLT_HRS : PyVal
  BLK_HRS : PyVal
  LANDING : PyVal
  FLIGHT : PyVal
deriving DecidableEq

/-- The five-entry fallback table of airports missing from the primary
dataset (format.py lines 16-22). -/
def fallback_airport_timezones (code : String) : Option AirportInfo :=
  if code = "CAN" then some ⟨"Guangzhou", "Asia/Shanghai", 233924/10000, 1132988/10000⟩
  else if code = "BKK" then some ⟨"Bangkok", "Asia/Bangkok", 136900/10000, 1007501/10000⟩
  else if code = "PEN" then some ⟨"Penang", "Asia/Kuala_Lumpur", 52976/10000, 1002760/10000⟩
  else if code = "TPE" then some ⟨"Taipei", "Asia/Taipei", 250777/10000, 1212330/10000⟩
  else if code = "KIX" then some ⟨"Osaka", "Asia/Tokyo", 344347/10000, 1352440/10000⟩
  else none

/-- get_airport_data (format.py lines 69-88): look the code up in the primary
dataset; when the record is present with tz, lat and lon all usable, return
(name-or-code, tz, lat, lon); otherwise consult the fallback table; otherwise
none. -/
def get_airport_data (env : Env) (code : String) : Option AirportInfo :=
  match env.db code with
  | some e =>
    match e.tz, e.lat, e.lon with
    | some tzv, some la, some lo => some ⟨e.name.getD code, tzv, la, lo⟩
    | _, _, _ => fallback_airport_timezones code
  | none => fallback_airport_timezones code

/-- parse_time (format.py lines 90-115): substitute noon for a malformed time
cell, parse date and time together with strptime, fall back to the date at
noon, and finally to the current instant; the function itself never raises. -/
def parse_time (env : Env) (date_str : String) (time_val : PyVal) : ℚ :=
  let time_str := if badTimeVal time_val then "12:00" else pyStrOf time_val
  match env.strptime "%m/%d/%Y %H:%M" (date_str ++ " " ++ time_str) with
  | some dt => dt
  | none =>
    match env.strptime "%m/%d/%Y %H:%M" (date_str ++ " 12:00") with
    | some dt => dt
    | none => env.now

/-- get_timezone_diff (format.py lines 117-134): the absolute difference of
the two zones' UTC offsets taken at the current instant. -/
def get_timezone_diff (env : Env) (tz1 tz2 : String) : ℚ :=
  |env.tzOffset tz1 env.now - env.tzOffset tz2 env.now|

/-- get_sunrise_sunset (format.py lines 136-159): (None, None) when the
airport cannot be resolved, modelled as ok none; the sunrise and sunset pair
otherwise; error models the ValueError astral raises at extreme latitudes,
which this function does not catch. -/
def get_sunrise_sunset (env : Env) (code : String) (day : ℤ) :
    Except Unit (Option (ℚ × ℚ)) :=
  match get_airport_data env code with
  | none => .ok none
  | some a =>
    match env.sun a.lat a.lon day a.tz with
    | none => .error ()
    | some p => .ok (some p)

/-- One iteration body of the interpolated rule's while loop (format.py lines
208-220): linearly interpolate latitude and longitude between origin and
destination by elapsed-time fraction, compute sunrise and sunset for the
interpolated point on the step's calendar day using the destination timezone,
and credit 10 minutes when the instant is before sunrise or after sunset;
a failing solar calculation (the except branch) credits nothing. -/
def stepCredit (env : Env) (origin_data dest_data : AirportInfo)
    (off_time on_time cur : ℚ) : ℕ :=
  let progressFrac := (cur - off_time) / (on_time - off_time)
  let la := origin_data.lat + progressFrac * (dest_data.lat - origin_data.lat)
  let lo := origin_data.lon + progressFrac * (dest_data.lon - origin_data.lon)
  match env.sun la lo (Int.floor (cur / 1440)) dest_data.tz with
  | none => 0
  | some (sunrise, sunset) => if cur < sunrise ∨ sunset < cur then 10 else 0

/-- The while loop of the interpolated rule (format.py lines 204-221):
iteration k runs at current time off_time + 10 k and only while that instant
is before on_time; the range bound covers every iteration the guard admits,
so the guarded sum equals the loop's total night minutes. -/
def advancedNightMinutes (env : Env) (origin_data dest_data : AirportInfo)
    (off_time on_time : ℚ) : ℕ :=
  (Finset.range (Int.toNat (Int.ceil ((on_time - off_time) / 10)))).sum
    (fun k =>
      if off_time + 10 * k < on_time then
        stepCredit env origin_data dest_data off_time on_time (off_time + 10 * k)
      else 0)

/-- estimate_night_time (format.py lines 161-223 and format_logbook_aero.py
lines 155-206), shared core: the two variants differ only in the rounding
precision (2 and 1 decimal places) and in the date and time parsers, passed
here as parameters.  The none result models an exception escaping: the date
parse raising, or astral raising inside the simple branch (whose
unavailability guard is reachable only through airport-lookup failure). -/
def estimateNightTimeCore (env : Env) (prec : ℕ)
    (parseDate : String → Option ℚ) (parseTime : String → PyVal → ℚ)
    (row : Row) : Option ℚ :=
  match parseDate row.DEPT_DATE with
  | none => none
  | some date =>
    match get_airport_data env row.ORG, get_airport_data env row.DEST with
    | some origin_data, some dest_data =>
      if get_timezone_diff env origin_data.tz dest_data.tz ≤ 4 then
        match get_sunrise_sunset env row.DEST (Int.floor (date / 1440)) with
        | .error _ => none
        | .ok none => some 0
        | .ok (some (sunrise, sunset)) =>
          if sunset ≤ parseTime row.DEPT_DATE row.OFF
              ∨ parseTime row.DEPT_DATE row.ON ≤ sunrise then
            some (pyRound prec (safe_float_conversion row.FLT_HRS))
          else if (parseTime row.DEPT_DATE row.OFF < sunset
                    ∧ sunset < parseTime row.DEPT_DATE row.ON)
              ∨ (parseTime row.DEPT_DATE row.OFF < sunrise
                    ∧ sunrise < parseTime row.DEPT_DATE row.ON) then
            some (pyRound prec (safe_float_conversion row.FLT_HRS * (1/2)))
          else some 0
      else
        some (min
          (pyRound prec
            ((advancedNightMinutes env origin_data dest_data
                (parseTime row.DEPT_DATE row.OFF)
                (parseTime row.DEPT_DATE row.ON) : ℚ) / 60))
          (safe_float_conversion row.FLT_HRS))
    | _, _ => some 0

/-- parse_date_flexible (format_logbook_aero.py lines 537-548): try the three
date formats in order, first success wins; none models the ValueError raised
when all fail. -/
def parse_date_flexible (env : Env) (s : String) : Option ℚ :=
  match env.strptime "%Y-%m-%d" s with
  | some d => some d
  | none =>
    match env.strptime "%m/%d/%Y" s with
    | some d => some d
    | none => env.strptime "%d/%m/%Y" s

/-- parse_time of format_logbook_aero.py (lines 89-119): substitute noon for
a malformed time cell, parse the date flexibly, split the time on the colon
and convert the parts with int(), rebuild the instant on the parsed day
(datetime.replace validates hour and minute ranges); on any ValueError or
IndexError fall back to the date at noon, then to the current instant. -/
def parse_time_aero (env : Env) (date_str : String) (time_val : PyVal) : ℚ :=
  let t := if badTimeVal time_val then "12:00" else pyStrOf time_val
  let attempt : Option ℚ :=
    match parse_date_flexible env date_str with
    | none => none
    | some d =>
      let parts := pySplitChar t ':'
      match pyIntOfString (parts.getD 0 "") with
      | none => none
      | some h =>
        match (if parts.length > 1 then pyIntOfString (parts.getD 1 "") else some 0) with
        | none => none
        | some m =>
          if 0 ≤ h ∧ h ≤ 23 ∧ 0 ≤ m ∧ m ≤ 59 then
            some (1440 * ((Int.floor (d / 1440) : ℤ) : ℚ) + 60 * h + m)
          else none
  match attempt with
  | some v => v
  | none =>
    match parse_date_flexible env date_str with
    | some d => 1440 * ((Int.floor (d / 1440) : ℤ) : ℚ) + 720
    | none => env.now

/-- estimate_night_time of format.py: precision 2, strict MM/DD/YYYY date
parse, format.py's parse_time. -/
def estimate_night_time (env : Env) (row : Row) : Option ℚ :=
  estimateNightTimeCore env 2 (fun s => env.strptime "%m/%d/%Y" s)
    (parse_time env) row

/-- estimate_night_time of format_logbook_aero.py: precision 1, flexible date
parse, the aero parse_time. -/
def estimate_night_time_aero (env : Env) (row : Row) : Option ℚ :=
  estimateNightTimeCore env 1 (parse_date_flexible env) (parse_time_aero env) row

/-- is_night_landing (format.py lines 225-252): day (false) when the airport
cannot be resolved; otherwise night exactly when the instant is at or past
sunset plus 30 minutes of civil twilight, or at or before sunrise; none
models the ValueError astral raises, which this function does not catch. -/
def is_night_landing (env : Env) (landing_time : ℚ) (destination : String) :
    Option Bool :=
  match get_airport_data env destination with
  | none => some false
  | some a =>
    match env.sun a.lat a.lon (Int.floor (landing_time / 1440)) a.tz with
    | none => none
    | some (sunrise, sunset) =>
      let civil_twilight := sunset + 30
      some (decide (civil_twilight ≤ landing_time ∨ landing_time ≤ sunrise))

/-- is_night_time (format_logbook_aero.py lines 208-226): its body is
verbatim identical to is_night_landing. -/
def is_night_time (env : Env) (time_dt : ℚ) (airport_code : String) :
    Option Bool :=
  is_night_landing env time_dt airport_code

/-- process_landings (format.py lines 254-294): no landing credited unless
the LANDING cell marks the crew member's landing; otherwise one day or one
night landing, any error while classifying defaulting to a day landing. -/
def process_landings (env : Env) (row : Row) : ℕ × ℕ :=
  if landingPerformed row.LANDING then
    match is_night_landing env (parse_time env row.DEPT_DATE row.ON) row.DEST with
    | some true => (0, 1)
    | some false => (1, 0)
    | none => (1, 0)
  else (0, 0)

/-- process_takeoffs (format_logbook_aero.py lines 256-284): mirror image of
process_landings for the takeoff at the origin, gated by the same LANDING
cell, any error defaulting to a day takeoff. -/
def process_takeoffs (env : Env) (row : Row) : ℕ × ℕ :=
  if landingPerformed row.LANDING then
    match is_night_time env (parse_time_aero env row.DEPT_DATE row.OFF) row.ORG with
    | some true => (0, 1)
    | some false => (1, 0)
    | none => (1, 0)
  else (0, 0)

/-- One line of CREW_POSITION_DISTRIBUTION (format.py lines 46-67). -/
structure Dist where
  PIC : ℚ
  SIC : ℚ
  Duration : ℚ
deriving DecidableEq

/-- CREW_POSITION_DISTRIBUTION: the static role table; none models the
KeyError a lookup with an unknown role raises. -/
def CREW_POSITION_DISTRIBUTION (position : String) : Option Dist :=
  if position = "captain" then some ⟨1, 0, 1⟩
  else if position = "first_officer" then some ⟨0, 1, 1⟩
  else if position = "relief_first_officer" then some ⟨0, 1/2, 1/2⟩
  else if position = "relief_captain" then some ⟨1/2, 0, 1/2⟩
  else none

/-- One value of the oe_data dictionary built by load_oe_data: the resolved
role and the optional custom PIC and SIC hours. -/
structure OeEntry where
  role : String
  pic_time : Option ℚ
  sic_time : Option ℚ
deriving DecidableEq

/-- Which optional columns the Operating-Experience file has (the
in-oe_df.columns tests of load_oe_data). -/
structure OeCols where
  hasSEAT : Bool
  hasROLE : Bool
  hasPIC_OE : Bool
  hasSIC_OE : Bool
  hasSIC_RFO_OE : Bool
  hasPIC_RFO_OE : Bool
deriving DecidableEq

/-- One row of the Operating-Experience file (cells of columns that may be
absent are only consulted under the corresponding presence flag). -/
structure OeRow where
  FLIGHT : PyVal
  SEAT : PyVal
  ROLE : PyVal
  PIC_OE : PyVal
  SIC_OE : PyVal
  SIC_RFO_OE : PyVal
  PIC_RFO_OE : PyVal
deriving DecidableEq

/-- Model of pandas row.get(col, default) given the column-presence flag. -/
def getCol (has : Bool) (v d : PyVal) : PyVal :=
  if has then v else d

/-- The normalized SEAT cell: str(row.get('SEAT', '')).strip().upper(). -/
def seatStr (r : OeRow) : String := pyUpper (pyStrip (pyStrOf r.SEAT))

/-- The normalized ROLE cell, same normalization as the SEAT cell. -/
def roleStr (r : OeRow) : String := pyUpper (pyStrip (pyStrOf r.ROLE))

/-- Seat values naming the captain seat (format.py line 404). -/
def isCaptSeat (s : String) : Bool :=
  s == "CAPT" || s == "CPT" || s == "CAPTAIN"

/-- Seat values naming the first-officer seat (format.py line 412). -/
def isFOSeat (s : String) : Bool :=
  s == "FO" || s == "F/O" || s == "FIRST OFFICER"

/-- Seat values naming the relief first officer (format.py line 420). -/
def isRFOSeat (s : String) : Bool :=
  s == "RFO" || s == "RF/O" || s == "R/FO" || s == "RELIEF FIRST OFFICER"

/-- Seat values naming the relief captain (format.py line 430). -/
def isRCSeat (s : String) : Bool :=
  s == "RF2" || s == "RC" || s == "RELIEF CAPTAIN"

/-- The per-row body of load_oe_data (format.py lines 393-467 and
format_logbook_aero.py lines 382-443, identical): build the flight's OeEntry
from the SEAT column when present, else from the ROLE column, then apply the
final PIC_OE/SIC_OE fallback when no specific time was set. -/
def oe_flight_data (cols : OeCols) (r : OeRow) : OeEntry :=
  let base : OeEntry := ⟨"captain", none, none⟩
  let fd : OeEntry :=
    if cols.hasSEAT then
      if isCaptSeat (seatStr r) then
        if cols.hasPIC_OE then
          let p := safe_float_conversion (getCol cols.hasPIC_OE r.PIC_OE (.num 0))
          ⟨"captain", if 0 < p then some p else none, some 0⟩
        else ⟨"captain", none, none⟩
      else if isFOSeat (seatStr r) then
        if cols.hasSIC_OE then
          let s := safe_float_conversion (getCol cols.hasSIC_OE r.SIC_OE (.num 0))
          ⟨"first_officer", some 0, if 0 < s then some s else none⟩
        else ⟨"first_officer", none, none⟩
      else if isRFOSeat (seatStr r) then
        if cols.hasSIC_RFO_OE then
          let s := safe_float_conversion (getCol cols.hasSIC_RFO_OE r.SIC_RFO_OE (.num 0))
          ⟨"relief_first_officer", some 0, if 0 < s then some s else none⟩
        else ⟨"relief_first_officer", some 0, none⟩
      else if isRCSeat (seatStr r) then
        if cols.hasPIC_RFO_OE then
          let p := safe_float_conversion (getCol cols.hasPIC_RFO_OE r.PIC_RFO_OE (.num 0))
          ⟨"relief_captain", if 0 < p then some p else none, some 0⟩
        else ⟨"relief_captain", none, some 0⟩
      else base
    else if cols.hasROLE then
      if roleStr r = "PIC" then
        ⟨"captain", some (safe_float_conversion (getCol cols.hasPIC_OE r.PIC_OE (.num 0))), some 0⟩
      else if roleStr r = "SIC" then
        ⟨"first_officer", some 0, some (safe_float_conversion (getCol cols.hasSIC_OE r.SIC_OE (.num 0)))⟩
      else base
    else base
  if fd.pic_time = none ∧ fd.sic_time = none then
    let fd1 :=
      if cols.hasPIC_OE ∧ fd.role = "captain" then
        let p := safe_float_conversion (getCol cols.hasPIC_OE r.PIC_OE (.num 0))
        if 0 < p then ⟨fd.role, some p, some 0⟩ else fd
      else fd
    if cols.hasSIC_OE ∧ fd1.role = "first_officer" then
      let s := safe_float_conversion (getCol cols.hasSIC_OE r.SIC_OE (.num 0))
      if 0 < s then ⟨fd1.role, some 0, some s⟩ else fd1
    else fd1
  else fd

/-- The flight-identity key of format.py (line 515): the stripped FLIGHT cell
zero-filled to four characters. -/
def flightKeySimple (row : Row) : String :=
  pyZfill (pyStrip (pyStrOf row.FLIGHT)) 4

/-- The composite flight-identity key of format_logbook_aero.py (lines
489-495): flight number, origin, destination and the already-normalized
departure date. -/
def flightKeyAero (row : Row) : String :=
  pyZfill (pyStrip (pyStrOf row.FLIGHT)) 4 ++ "_" ++ pyUpper (pyStrip row.ORG)
    ++ "_" ++ pyUpper (pyStrip row.DEST) ++ "_" ++ pyStrip row.DEPT_DATE

/-- The FAA time categories returned by format.py's assign_crew_time. -/
structure CrewOut where
  PIC : ℚ
  SIC : ℚ
  Duration : ℚ
  XC : ℚ
deriving DecidableEq

/-- The logbook.aero time categories returned by the aero assign_crew_time. -/
structure CrewOutAero where
  PIC_Time : ℚ
  CoPilot_Time : ℚ
  MultiPilot_Time : ℚ
  XC_Time : ℚ
deriving DecidableEq

/-- assign_crew_time (format.py lines 494-528): distribute block and flight
time by the role's fractions, then substitute a non-null OE pic or sic value
verbatim (no re-clamping in this variant); none models the KeyError an
unknown role raises. -/
def assign_crew_time (row : Row) (position : String)
    (oe_data : String → Option OeEntry) : Option CrewOut :=
  match CREW_POSITION_DISTRIBUTION position with
  | none => none
  | some distribution =>
    let block_time := safe_float_conversion row.BLK_HRS
    let flight_time := safe_float_conversion row.FLT_HRS
    let pic_base := block_time * distribution.PIC
    let sic_base := block_time * distribution.SIC
    match oe_data (flightKeySimple row) with
    | some flight_data =>
      some ⟨flight_data.pic_time.getD pic_base, flight_data.sic_time.getD sic_base,
        flight_time * distribution.Duration, block_time⟩
    | none =>
      some ⟨pic_base, sic_base, flight_time * distribution.Duration, block_time⟩

/-- assign_crew_time (format_logbook_aero.py lines 476-513): distribute total
(block) time by the role's fractions, substitute a non-null OE value clamped
by min to the total time, then cap both values to the total time again. -/
def assign_crew_time_aero (row : Row) (position : String)
    (oe_data : String → Option OeEntry) : Option CrewOutAero :=
  match CREW_POSITION_DISTRIBUTION position with
  | none => none
  | some distribution =>
    let total_time := safe_float_conversion row.BLK_HRS
    let pic0 := total_time * distribution.PIC
    let sic0 := total_time * distribution.SIC
    let pic1 :=
      match oe_data (flightKeyAero row) with
      | some flight_data =>
        match flight_data.pic_time with
        | some p => min p total_time
        | none => pic0
      | none => pic0
    let sic1 :=
      match oe_data (flightKeyAero row) with
      | some flight_data =>
        match flight_data.sic_time with
        | some s => min s total_time
        | none => sic0
      | none => sic0
    some ⟨min pic1 total_time, min sic1 total_time, total_time, total_time⟩

/-- The per-row engine surface of format.py plus the aero takeoff
classifier: night time, landing and takeoff classification, and crew time
for one flight record. -/
def processRow (env : Env) (row : Row) (position : String)
    (oe_data : String → Option OeEntry) :
    Option ℚ × (ℕ × ℕ) × (ℕ × ℕ) × Option CrewOut :=
  (estimate_night_time env row, process_landings env row,
   process_takeoffs env row, assign_crew_time row position oe_data)

theorem roundHalfEven_intCast (z : ℤ) : roundHalfEven (z : ℚ) = z := by
  simp [roundHalfEven]

theorem roundHalfEven_nonneg (q : ℚ) (h : 0 ≤ q) : 0 ≤ roundHalfEven q := by
  have hf : 0 ≤ Int.floor q := Int.floor_nonneg.mpr h
  unfold roundHalfEven
  split_ifs <;> omega

theorem roundHalfEven_le_add_half (q : ℚ) :
    (roundHalfEven q : ℚ) ≤ q + 1 / 2 := by
  have hf : (Int.floor q : ℚ) ≤ q := Int.floor_le q
  unfold roundHalfEven
  split_ifs with h1 h2 h3 <;> push_cast <;> linarith

theorem pyRound_nonneg (prec : ℕ) (q : ℚ) (h : 0 ≤ q) : 0 ≤ pyRound prec q := by
  unfold pyRound
  have h1 : (0 : ℚ) ≤ (roundHalfEven (q * 10 ^ prec) : ℚ) := by
    exact_mod_cast roundHalfEven_nonneg _ (by positivity)
  positivity

theorem pyRound_eq_self (prec : ℕ) (q : ℚ)
    (h : ∃ z : ℤ, q * 10 ^ prec = (z : ℚ)) : pyRound prec q = q := by
  obtain ⟨z, hz⟩ := h
  unfold pyRound
  rw [hz, roundHalfEven_intCast, ← hz]
  field_simp

theorem pyRound_half_le (prec : ℕ) (q : ℚ) (hq : 0 ≤ q)
    (h : ∃ z : ℤ, q * 10 ^ prec = (z : ℚ)) :
    pyRound prec (q * (1 / 2)) ≤ q := by
  obtain ⟨z, hz⟩ := h
  have hp : (0 : ℚ) < 10 ^ prec := by positivity
  have hzq : (z : ℚ) = q * 10 ^ prec := hz.symm
  have hz0 : (0 : ℚ) ≤ (z : ℚ) := by rw [hzq]; positivity
  have harg : q * (1 / 2) * 10 ^ prec = (z : ℚ) / 2 := by
    rw [← hz]; ring
  unfold pyRound
  rw [harg]
  rw [div_le_iff₀ hp, ← hzq]
  rcases eq_or_lt_of_le hz0 with h0 | h0
  · have hz' : (z : ℚ) = 0 := h0.symm
    rw [hz', zero_div]
    have : roundHalfEven (0 : ℚ) = 0 := by
      simpa using roundHalfEven_intCast 0
    simp [this]
  · have hz1 : (1 : ℚ) ≤ (z : ℚ) := by
      have : (0 : ℤ) < z := by exact_mod_cast h0
      exact_mod_cast this
    have hle := roundHalfEven_le_add_half ((z : ℚ) / 2)
    linarith

theorem coreDateFail (env : Env) (prec : ℕ) (pd : String → Option ℚ)
    (pt : String → PyVal → ℚ) (row : Row) (h : pd row.DEPT_DATE = none) :
    estimateNightTimeCore env prec pd pt row = none := by
  unfold estimateNightTimeCore
  rw [h]

theorem coreAirportMissing (env : Env) (prec : ℕ) (pd : String → Option ℚ)
    (pt : String → PyVal → ℚ) (row : Row) (d : ℚ)
    (hd : pd row.DEPT_DATE = some d)
    (h : get_airport_data env row.ORG = none ∨ get_airport_data env row.DEST = none) :
    estimateNightTimeCore env prec pd pt row = some 0 := by
  unfold estimateNightTimeCore
  rw [hd]
  rcases h with h | h
  · simp only [h]
  · cases ho : get_airport_data env row.ORG with
    | none => simp only [ho]
    | some a => simp only [ho, h]

theorem coreSimpleSunFail (env : Env) (prec : ℕ) (pd : String → Option ℚ)
    (pt : String → PyVal → ℚ) (row : Row) (d : ℚ) (odata ddata : AirportInfo)
    (hd : pd row.DEPT_DATE = some d)
    (ho : get_airport_data env row.ORG = some odata)
    (hdst : get_airport_data env row.DEST = some ddata)
    (htz : get_timezone_diff env odata.tz ddata.tz ≤ 4)
    (hs : env.sun ddata.lat ddata.lon (Int.floor (d / 1440)) ddata.tz = none) :
    estimateNightTimeCore env prec pd pt row = none := by
  unfold estimateNightTimeCore get_sunrise_sunset
  simp only [hd, ho, hdst, hs, if_pos htz]

theorem coreSimpleEval (env : Env) (prec : ℕ) (pd : String → Option ℚ)
    (pt : String → PyVal → ℚ) (row : Row) (d : ℚ) (odata ddata : AirportInfo)
    (sr ss : ℚ)
    (hd : pd row.DEPT_DATE = some d)
    (ho : get_airport_data env row.ORG = some odata)
    (hdst : get_airport_data env row.DEST = some ddata)
    (htz : get_timezone_diff env odata.tz ddata.tz ≤ 4)
    (hs : env.sun ddata.lat ddata.lon (Int.floor (d / 1440)) ddata.tz = some (sr, ss)) :
    estimateNightTimeCore env prec pd pt row =
      some (if ss ≤ pt row.DEPT_DATE row.OFF ∨ pt row.DEPT_DATE row.ON ≤ sr then
              pyRound prec (safe_float_conversion row.FLT_HRS)
            else if (pt row.DEPT_DATE row.OFF < ss ∧ ss < pt row.DEPT_DATE row.ON)
                ∨ (pt row.DEPT_DATE row.OFF < sr ∧ sr < pt row.DEPT_DATE row.ON) then
              pyRound prec (safe_float_conversion row.FLT_HRS * (1/2))
            else 0) := by
  unfold estimateNightTimeCore get_sunrise_sunset
  simp only [hd, ho, hdst, hs, if_pos htz]
  split_ifs <;> rfl

theorem coreAdvancedEval (env : Env) (prec : ℕ) (pd : String → Option ℚ)
    (pt : String → PyVal → ℚ) (row : Row) (d : ℚ) (odata ddata : AirportInfo)
    (hd : pd row.DEPT_DATE = some d)
    (ho : get_airport_data env row.ORG = some odata)
    (hdst : get_airport_data env row.DEST = some ddata)
    (htz : ¬ get_timezone_diff env odata.tz ddata.tz ≤ 4) :
    estimateNightTimeCore env prec pd pt row =
      some (min
        (pyRound prec
          ((advancedNightMinutes env odata ddata
              (pt row.DEPT_DATE row.OFF) (pt row.DEPT_DATE row.ON) : ℚ) / 60))
        (safe_float_conversion row.FLT_HRS)) := by
  unfold estimateNightTimeCore
  simp only [hd, ho, hdst, if_neg htz]

/-- A concrete environment for evaluation: two resolvable airports AAA and
BBB in the same zone, a June day whose date and 23:00 / 23:30 clock times
parse, sunrise 05:00 and sunset 20:00 UTC. -/
def simpleEnv : Env :=
  ⟨fun c => if c = "AAA" ∨ c = "BBB" then some ⟨some "Apt", some "UTC", some 0, some 0⟩ else none,
   fun _ s =>
     if s = "06/01/2024" then some 0
     else if s = "06/01/2024 23:00" then some 1380
     else if s = "06/01/2024 23:30" then some 1410
     else none,
   fun _ _ _ _ => some (300, 1200),
   fun _ _ => 0,
   0⟩

/-- Same as simpleEnv except the solar oracle always fails (the ValueError
astral raises at extreme latitudes). -/
def sunFailEnv : Env :=
  ⟨fun c => if c = "AAA" ∨ c = "BBB" then some ⟨some "Apt", some "UTC", some 0, some 0⟩ else none,
   fun _ s =>
     if s = "06/01/2024" then some 0
     else if s = "06/01/2024 23:00" then some 1380
     else if s = "06/01/2024 23:30" then some 1410
     else none,
   fun _ _ _ _ => none,
   fun _ _ => 0,
   0⟩

/-- A flight taking off at 23:00 after sunset with FLT_HRS 0.006: the whole
flight is night, and round(0.006, 2) = 0.01 exceeds the flight hours. -/
def c1row : Row :=
  ⟨"06/01/2024", "AAA", "BBB", .str "23:00", .str "23:30", .num (3/500),
   .num 1, .num 0, .str "1"⟩

/-- The same flight with FLT_HRS 1, a value exact at two decimal places. -/
def c1wrow : Row :=
  ⟨"06/01/2024", "AAA", "BBB", .str "23:00", .str "23:30", .num 1,
   .num 1, .num 0, .str "1"⟩

/-- C1 counterexample: the invariant 0 ≤ night_hours ≤ flight_hours fails as
stated.  For the all-night flight c1row with FLT_HRS = 0.006 the simple rule
returns round(0.006, 2) = 0.01, which exceeds the flight hours. -/
theorem night_time_bound_cex :
    estimate_night_time simpleEnv c1row = some (1 / 100) ∧
    safe_float_conversion c1row.FLT_HRS = 3 / 500 ∧
    ¬ ((1 : ℚ) / 100 ≤ 3 / 500) := by
  refine ⟨?_, by norm_num [c1row, safe_float_conversion], by norm_num⟩
  rw [estimate_night_time,
    coreSimpleEval simpleEnv 2 _ _ c1row 0 ⟨"Apt", "UTC", 0, 0⟩ ⟨"Apt", "UTC", 0, 0⟩
      300 1200 (by decide) (by decide) (by decide)
      (by norm_num [get_timezone_diff, simpleEnv]) rfl]
  rw [show parse_time simpleEnv c1row.DEPT_DATE c1row.OFF = 1380 from by decide,
    show parse_time simpleEnv c1row.DEPT_DATE c1row.ON = 1410 from by decide]
  rw [if_pos (by norm_num : (1200 : ℚ) ≤ 1380 ∨ (1410 : ℚ) ≤ 300)]
  norm_num [c1row, safe_float_conversion, pyRound, roundHalfEven]

/-- C1 (amended): for every flight record whose FLT_HRS value is nonnegative
and exact at the variant's rounding precision (a multiple of 0.01 in
format.py, of 0.1 in format_logbook_aero.py), every value the night-time
estimator returns satisfies 0 ≤ night_hours ≤ flight_hours, in both the
simple destination-based branch and the interpolated branch; without the
exactness condition the simple rule's all-night case can round the result
above flight_hours. -/
theorem night_time_within_bounds (env : Env) (prec : ℕ)
    (parseDate : String → Option ℚ) (parseTime : String → PyVal → ℚ)
    (row : Row) (v : ℚ)
    (hnn : 0 ≤ safe_float_conversion row.FLT_HRS)
    (hmul : ∃ z : ℤ, safe_float_conversion row.FLT_HRS * 10 ^ prec = (z : ℚ))
    (hres : estimateNightTimeCore env prec parseDate parseTime row = some v) :
    0 ≤ v ∧ v ≤ safe_float_conversion row.FLT_HRS := by
  unfold estimateNightTimeCore at hres
  split at hres
  · exact absurd hres (by simp)
  · split at hres
    · split at hres
      · split at hres
        · exact absurd hres (by simp)
        · simp only [Option.some.injEq] at hres
          subst hres
          exact ⟨le_refl 0, hnn⟩
        · split at hres
          · simp only [Option.some.injEq] at hres
            subst hres
            rw [pyRound_eq_self _ _ hmul]
            exact ⟨hnn, le_refl _⟩
          · split at hres
            · simp only [Option.some.injEq] at hres
              subst hres
              refine ⟨pyRound_nonneg _ _ (by positivity), ?_⟩
              exact pyRound_half_le _ _ hnn hmul
            · simp only [Option.some.injEq] at hres
              subst hres
              exact ⟨le_refl 0, hnn⟩
      · simp only [Option.some.injEq] at hres
        subst hres
        refine ⟨le_min (pyRound_nonneg _ _ (by positivity)) hnn, min_le_right _ _⟩
    · simp only [Option.some.injEq] at hres
      subst hres
      exact ⟨le_refl 0, hnn⟩

/-- C1 witness: the amended bound evaluated on the all-night flight c1wrow
with FLT_HRS = 1, whose estimate is 1. -/
theorem c1wrowEval :
    estimateNightTimeCore simpleEnv 2 (fun s => simpleEnv.strptime "%m/%d/%Y" s)
      (parse_time simpleEnv) c1wrow = some 1 := by
  rw [coreSimpleEval simpleEnv 2 _ _ c1wrow 0 ⟨"Apt", "UTC", 0, 0⟩ ⟨"Apt", "UTC", 0, 0⟩
      300 1200 (by decide) (by decide) (by decide)
      (by norm_num [get_timezone_diff, simpleEnv]) rfl]
  rw [show parse_time simpleEnv c1wrow.DEPT_DATE c1wrow.OFF = 1380 from by decide,
    show parse_time simpleEnv c1wrow.DEPT_DATE c1wrow.ON = 1410 from by decide]
  rw [if_pos (by norm_num : (1200 : ℚ) ≤ 1380 ∨ (1410 : ℚ) ≤ 300)]
  norm_num [c1wrow, safe_float_conversion, pyRound, roundHalfEven]

/-- C1 witness: the amended bound evaluated on the all-night flight c1wrow
with FLT_HRS = 1, whose estimate is 1. -/
theorem night_time_within_bounds_witness :
    0 ≤ (1 : ℚ) ∧ (1 : ℚ) ≤ safe_float_conversion c1wrow.FLT_HRS :=
  night_time_within_bounds simpleEnv 2 (fun s => simpleEnv.strptime "%m/%d/%Y" s)
    (parse_time simpleEnv) c1wrow 1
    (by norm_num [c1wrow, safe_float_conversion])
    ⟨100, by norm_num [c1wrow, safe_float_conversion]⟩ c1wrowEval

/-- The all-night flight with FLT_HRS 0.007, for the simple-rule claim. -/
def c3row : Row :=
  ⟨"06/01/2024", "AAA", "BBB", .str "23:00", .str "23:30", .num (7/1000),
   .num 1, .num 0, .str "1"⟩

/-- C3 counterexample: two clauses of the simple-rule claim fail as stated.
The all-night case returns round(flight_hours, 2), not flight_hours: for
FLT_HRS = 0.007 the result is 0.01.  And when the destination solar
calculation is unavailable the estimator does not return 0: astral's
exception propagates (result none), the 0 fallback being reachable only
through airport-lookup failure, excluded here since both airports resolve. -/
theorem simple_rule_cex :
    estimate_night_time simpleEnv c3row = some (1 / 100) ∧
    safe_float_conversion c3row.FLT_HRS = 7 / 1000 ∧
    (1 / 100 : ℚ) ≠ 7 / 1000 ∧
    get_airport_data sunFailEnv c3row.ORG = some ⟨"Apt", "UTC", 0, 0⟩ ∧
    get_airport_data sunFailEnv c3row.DEST = some ⟨"Apt", "UTC", 0, 0⟩ ∧
    estimate_night_time sunFailEnv c3row = none := by
  refine ⟨?_, by norm_num [c3row, safe_float_conversion], by norm_num,
    by decide, by decide, ?_⟩
  · rw [estimate_night_time,
      coreSimpleEval simpleEnv 2 _ _ c3row 0 ⟨"Apt", "UTC", 0, 0⟩ ⟨"Apt", "UTC", 0, 0⟩
        300 1200 (by decide) (by decide) (by decide)
        (by norm_num [get_timezone_diff, simpleEnv]) rfl]
    rw [show parse_time simpleEnv c3row.DEPT_DATE c3row.OFF = 1380 from by decide,
      show parse_time simpleEnv c3row.DEPT_DATE c3row.ON = 1410 from by decide]
    rw [if_pos (by norm_num : (1200 : ℚ) ≤ 1380 ∨ (1410 : ℚ) ≤ 300)]
    norm_num [c3row, safe_float_conversion, pyRound, roundHalfEven]
  · exact coreSimpleSunFail sunFailEnv 2 _ _ c3row 0 ⟨"Apt", "UTC", 0, 0⟩
      ⟨"Apt", "UTC", 0, 0⟩ (by decide) (by decide) (by decide)
      (by norm_num [get_timezone_diff, sunFailEnv]) rfl

/-- C3 (amended): for a flight whose date parses, whose origin and
destination resolve, and whose timezone difference is at most 4 hours, the
simple destination-based rule gives: all-night flights (off_time at or after
sunset, or on_time at or before sunrise) get flight_hours rounded half-even
at the variant's precision; a sunset or sunrise strictly inside
(off_time, on_time) gives flight_hours * 0.5 so rounded; otherwise 0.  When
the destination solar calculation is unavailable the exception propagates
(result none) instead of giving 0, the 0 fallback of the unavailability
guard being reachable only through airport-lookup failure, which the
branch's hypotheses exclude. -/
theorem simple_rule_characterization (env : Env) (prec : ℕ)
    (pd : String → Option ℚ) (pt : String → PyVal → ℚ) (row : Row) (d : ℚ)
    (odata ddata : AirportInfo)
    (hd : pd row.DEPT_DATE = some d)
    (ho : get_airport_data env row.ORG = some odata)
    (hdst : get_airport_data env row.DEST = some ddata)
    (htz : get_timezone_diff env odata.tz ddata.tz ≤ 4) :
    (env.sun ddata.lat ddata.lon (Int.floor (d / 1440)) ddata.tz = none →
      estimateNightTimeCore env prec pd pt row = none) ∧
    (∀ sr ss,
      env.sun ddata.lat ddata.lon (Int.floor (d / 1440)) ddata.tz = some (sr, ss) →
      estimateNightTimeCore env prec pd pt row =
        some (if ss ≤ pt row.DEPT_DATE row.OFF ∨ pt row.DEPT_DATE row.ON ≤ sr then
                pyRound prec (safe_float_conversion row.FLT_HRS)
              else if (pt row.DEPT_DATE row.OFF < ss ∧ ss < pt row.DEPT_DATE row.ON)
                  ∨ (pt row.DEPT_DATE row.OFF < sr ∧ sr < pt row.DEPT_DATE row.ON) then
                pyRound prec (safe_float_conversion row.FLT_HRS * (1/2))
              else 0)) :=
  ⟨fun hs => coreSimpleSunFail env prec pd pt row d odata ddata hd ho hdst htz hs,
   fun sr ss hs => coreSimpleEval env prec pd pt row d odata ddata sr ss hd ho hdst htz hs⟩

/-- C3 witness: the characterization applied to the concrete environment
whose solar oracle fails, giving a propagated exception. -/
theorem simple_rule_characterization_witness :
    estimateNightTimeCore sunFailEnv 2 (fun s => sunFailEnv.strptime "%m/%d/%Y" s)
      (parse_time sunFailEnv) c1row = none :=
  (simple_rule_characterization sunFailEnv 2
    (fun s => sunFailEnv.strptime "%m/%d/%Y" s) (parse_time sunFailEnv) c1row 0
    ⟨"Apt", "UTC", 0, 0⟩ ⟨"Apt", "UTC", 0, 0⟩ (by decide) (by decide) (by decide)
    (by norm_num [get_timezone_diff, sunFailEnv])).1 rfl

/-- A concrete environment with a timezone difference of 8 hours between the
origin CCC and the destination DDD, so that the interpolated rule runs;
sunrise 100 and sunset 200 everywhere. -/
def advEnv : Env :=
  ⟨fun c =>
     if c = "CCC" then some ⟨some "Org", some "Z8", some 0, some 0⟩
     else if c = "DDD" then some ⟨some "Dst", some "Z0", some 10, some 10⟩
     else none,
   fun _ s =>
     if s = "06/01/2024" then some 0
     else if s = "06/01/2024 00:00" then some 0
     else if s = "06/01/2024 00:10" then some 10
     else none,
   fun _ _ _ _ => some (100, 200),
   fun tz _ => if tz = "Z8" then 8 else 0,
   0⟩

/-- A ten-minute long-haul flight before sunrise: one sampling step, fully
night. -/
def c4row : Row :=
  ⟨"06/01/2024", "CCC", "DDD", .str "00:00", .str "00:10", .num 5,
   .num 5, .num 0, .str "1"⟩

/-- C4 counterexample: the interpolated branch does not return the summed
night minutes converted to hours (clamped): it first rounds the hours
half-even to 2 decimal places (1 in the aero variant).  Here one 10-minute
step is credited, 10/60 hours is 1/6, yet the estimator returns 0.17. -/
theorem interpolated_rule_cex :
    estimate_night_time advEnv c4row = some (17 / 100) ∧
    safe_float_conversion c4row.FLT_HRS = 5 ∧
    advancedNightMinutes advEnv ⟨"Org", "Z8", 0, 0⟩ ⟨"Dst", "Z0", 10, 10⟩ 0 10 = 10 ∧
    (17 / 100 : ℚ) ≠ min ((10 : ℚ) / 60) 5 := by
  refine ⟨?_, by norm_num [c4row, safe_float_conversion], ?_, by norm_num [min_def]⟩
  · rw [estimate_night_time,
      coreAdvancedEval advEnv 2 _ _ c4row 0 ⟨"Org", "Z8", 0, 0⟩ ⟨"Dst", "Z0", 10, 10⟩
        (by decide) (by decide) (by decide)
        (by simp [get_timezone_diff, advEnv]; norm_num)]
    rw [show parse_time advEnv c4row.DEPT_DATE c4row.OFF = 0 from by decide,
      show parse_time advEnv c4row.DEPT_DATE c4row.ON = 10 from by decide]
    rw [show advancedNightMinutes advEnv ⟨"Org", "Z8", 0, 0⟩ ⟨"Dst", "Z0", 10, 10⟩ 0 10 = 10
      from by norm_num [advancedNightMinutes, stepCredit, Finset.sum_range_one, advEnv]]
    norm_num [c4row, safe_float_conversion, pyRound, roundHalfEven, min_def]
  · norm_num [advancedNightMinutes, stepCredit, Finset.sum_range_one, advEnv]

/-- C4 (amended): for a flight whose date parses, whose airports resolve and
whose timezone difference exceeds 4 hours, the estimator returns the sum of
the 10-minute step credits divided by 60, rounded half-even at the variant's
precision, clamped from above by flight_hours; every returned value is at
most flight_hours; each step with latitude and longitude linearly
interpolated by elapsed-time fraction credits nothing when its solar
calculation fails (the flight is not aborted), and otherwise credits 10
minutes exactly when the step's instant is before that day's sunrise or
after that day's sunset. -/
theorem interpolated_rule_characterization (env : Env) (prec : ℕ)
    (pd : String → Option ℚ) (pt : String → PyVal → ℚ) (row : Row) (d : ℚ)
    (odata ddata : AirportInfo)
    (hd : pd row.DEPT_DATE = some d)
    (ho : get_airport_data env row.ORG = some odata)
    (hdst : get_airport_data env row.DEST = some ddata)
    (htz : ¬ get_timezone_diff env odata.tz ddata.tz ≤ 4) :
    estimateNightTimeCore env prec pd pt row =
      some (min
        (pyRound prec
          ((advancedNightMinutes env odata ddata
              (pt row.DEPT_DATE row.OFF) (pt row.DEPT_DATE row.ON) : ℚ) / 60))
        (safe_float_conversion row.FLT_HRS)) ∧
    (∀ v, estimateNightTimeCore env prec pd pt row = some v →
      v ≤ safe_float_conversion row.FLT_HRS) ∧
    (∀ off_t on_t cur : ℚ,
      env.sun (odata.lat + (cur - off_t) / (on_t - off_t) * (ddata.lat - odata.lat))
          (odata.lon + (cur - off_t) / (on_t - off_t) * (ddata.lon - odata.lon))
          (Int.floor (cur / 1440)) ddata.tz = none →
      stepCredit env odata ddata off_t on_t cur = 0) ∧
    (∀ off_t on_t cur sr ss : ℚ,
      env.sun (odata.lat + (cur - off_t) / (on_t - off_t) * (ddata.lat - odata.lat))
          (odata.lon + (cur - off_t) / (on_t - off_t) * (ddata.lon - odata.lon))
          (Int.floor (cur / 1440)) ddata.tz = some (sr, ss) →
      stepCredit env odata ddata off_t on_t cur =
        if cur < sr ∨ ss < cur then 10 else 0) := by
  refine ⟨coreAdvancedEval env prec pd pt row d odata ddata hd ho hdst htz, ?_, ?_, ?_⟩
  · intro v hv
    rw [coreAdvancedEval env prec pd pt row d odata ddata hd ho hdst htz] at hv
    simp only [Option.some.injEq] at hv
    subst hv
    exact min_le_right _ _
  · intro off_t on_t cur hs
    simp only [stepCredit, hs]
  · intro off_t on_t cur sr ss hs
    simp only [stepCredit, hs]

/-- C4 witness: the characterization's main clause evaluated on the
one-step long-haul flight. -/
theorem interpolated_rule_characterization_witness :
    estimateNightTimeCore advEnv 2 (fun s => advEnv.strptime "%m/%d/%Y" s)
      (parse_time advEnv) c4row =
      some (min
        (pyRound 2
          ((advancedNightMinutes advEnv ⟨"Org", "Z8", 0, 0⟩ ⟨"Dst", "Z0", 10, 10⟩
              (parse_time advEnv c4row.DEPT_DATE c4row.OFF)
              (parse_time advEnv c4row.DEPT_DATE c4row.ON) : ℚ) / 60))
        (safe_float_conversion c4row.FLT_HRS)) :=
  (interpolated_rule_characterization advEnv 2
    (fun s => advEnv.strptime "%m/%d/%Y" s) (parse_time advEnv) c4row 0
    ⟨"Org", "Z8", 0, 0⟩ ⟨"Dst", "Z0", 10, 10⟩ (by decide) (by decide) (by decide)
    (by simp [get_timezone_diff, advEnv]; norm_num)).1

/-- An environment with an empty airport dataset and a strptime that parses
nothing, so both airport resolution and the estimator's own date parse
fail. -/
def noDataEnv : Env :=
  ⟨fun _ => none, fun _ _ => none, fun _ _ _ _ => none, fun _ _ => 0, 0⟩

/-- An environment with an empty airport dataset in which the June date does
parse. -/
def dateOnlyEnv : Env :=
  ⟨fun _ => none,
   fun _ s => if s = "06/01/2024" then some 0 else none,
   fun _ _ _ _ => none, fun _ _ => 0, 0⟩

/-- A flight between two unresolvable airports with an unparseable date. -/
def c8row : Row :=
  ⟨"bad-date", "ZZZ", "YYY", .str "12:00", .str "13:00", .num 1,
   .num 1, .num 0, .str "1"⟩

/-- The same unresolvable flight with a parseable date. -/
def c8wrow : Row :=
  ⟨"06/01/2024", "ZZZ", "YYY", .str "12:00", .str "13:00", .num 1,
   .num 1, .num 0, .str "1"⟩

/-- C8 counterexample: a record whose airports cannot be resolved does not
always give 0 without an error.  The estimator parses DEPT_DATE with a
raising strptime before resolving airports, so for c8row, whose date is
unparseable and whose airports are absent from the dataset and the fallback
table, the exception escapes (result none) instead of 0. -/
theorem unresolved_airport_cex :
    get_airport_data noDataEnv c8row.ORG = none ∧
    get_airport_data noDataEnv c8row.DEST = none ∧
    estimate_night_time noDataEnv c8row = none := by
  refine ⟨by decide, by decide, ?_⟩
  exact coreDateFail noDataEnv 2 (fun s => noDataEnv.strptime "%m/%d/%Y" s)
    (parse_time noDataEnv) c8row (by decide)

/-- C8 (amended): provided the departure date parses (the estimator's date
parse precedes airport resolution and propagates its own failure), a flight
whose origin or destination cannot be resolved gets night time exactly 0
with no exception; and a code absent from both the primary dataset and the
five-entry fallback table is indeed unresolvable. -/
theorem unresolved_airport_zero (env : Env) (prec : ℕ)
    (pd : String → Option ℚ) (pt : String → PyVal → ℚ) (row : Row) (d : ℚ)
    (hd : pd row.DEPT_DATE = some d)
    (hmiss : get_airport_data env row.ORG = none ∨
      get_airport_data env row.DEST = none) :
    estimateNightTimeCore env prec pd pt row = some 0 ∧
    (∀ c, env.db c = none → fallback_airport_timezones c = none →
      get_airport_data env c = none) := by
  constructor
  · exact coreAirportMissing env prec pd pt row d hd hmiss
  · intro c h1 h2
    unfold get_airport_data
    simp only [h1]
    exact h2

/-- C8 witness: the amended claim evaluated on the unresolvable flight with
a parseable date. -/
theorem unresolved_airport_zero_witness :
    estimateNightTimeCore dateOnlyEnv 2 (fun s => dateOnlyEnv.strptime "%m/%d/%Y" s)
      (parse_time dateOnlyEnv) c8wrow = some 0 ∧
    (∀ c, dateOnlyEnv.db c = none → fallback_airport_timezones c = none →
      get_airport_data dateOnlyEnv c = none) :=
  unresolved_airport_zero dateOnlyEnv 2 (fun s => dateOnlyEnv.strptime "%m/%d/%Y" s)
    (parse_time dateOnlyEnv) c8wrow 0 (by decide) (Or.inl (by decide))

theorem distBounds (position : String) (dist : Dist)
    (h : CREW_POSITION_DISTRIBUTION position = some dist) :
    dist.PIC ≤ 1 ∧ dist.SIC ≤ 1 := by
  unfold CREW_POSITION_DISTRIBUTION at h
  split_ifs at h <;>
    first
    | exact Option.noConfusion h
    | (injection h with h
       subst h
       constructor <;> norm_num)

/-- A five-block-hour flight numbered 12 whose Operating-Experience override
supplies six SIC hours. -/
def c2row : Row :=
  ⟨"06/01/2024", "AAA", "BBB", .str "10:00", .str "12:00", .num 3,
   .num 5, .num 0, .str "12"⟩

/-- The OE table carrying the six-hour SIC override for flight 0012. -/
def c2oe (fid : String) : Option OeEntry :=
  if fid = "0012" then some ⟨"first_officer", none, some 6⟩ else none

/-- C2 counterexample: format.py's assign_crew_time substitutes a non-null
OE override without re-clamping it to block hours.  With block hours 5 and
an OE sic override of 6, the returned SIC time is 6 > 5, contradicting the
claimed re-clamp (the spec's own role-override scenario expects 5). -/
theorem crew_time_cap_cex :
    assign_crew_time c2row "first_officer" c2oe = some ⟨0, 6, 3, 5⟩ ∧
    safe_float_conversion c2row.BLK_HRS = 5 ∧
    ¬ ((6 : ℚ) ≤ 5) := by
  refine ⟨?_, by norm_num [c2row, safe_float_conversion], by norm_num⟩
  have hdist : CREW_POSITION_DISTRIBUTION "first_officer" = some ⟨0, 1, 1⟩ := by
    decide
  have hkey : flightKeySimple c2row = "0012" := by decide
  unfold assign_crew_time
  rw [hdist, hkey]
  norm_num [c2oe, c2row, safe_float_conversion]

/-- C2 (amended): in the logbook.aero variant every returned pic and sic
value is capped by block hours, both at override substitution and by the
final cap, for any inputs.  In format.py the base computation respects the
caps when block hours are nonnegative and no OE entry exists for the
flight, but a non-null override value is substituted verbatim without
re-clamping: the returned pic or sic then equals the raw override. -/
theorem crew_time_caps (row : Row) (position : String)
    (oe_data : String → Option OeEntry)
    (hb : 0 ≤ safe_float_conversion row.BLK_HRS) :
    (∀ outA, assign_crew_time_aero row position oe_data = some outA →
      outA.PIC_Time ≤ safe_float_conversion row.BLK_HRS ∧
      outA.CoPilot_Time ≤ safe_float_conversion row.BLK_HRS) ∧
    (∀ outF, assign_crew_time row position oe_data = some outF →
      (oe_data (flightKeySimple row) = none →
        outF.PIC ≤ safe_float_conversion row.BLK_HRS ∧
        outF.SIC ≤ safe_float_conversion row.BLK_HRS) ∧
      (∀ e p, oe_data (flightKeySimple row) = some e → e.pic_time = some p →
        outF.PIC = p) ∧
      (∀ e s, oe_data (flightKeySimple row) = some e → e.sic_time = some s →
        outF.SIC = s)) := by
  cases hd : CREW_POSITION_DISTRIBUTION position with
  | none =>
    constructor
    · intro outA h
      simp only [assign_crew_time_aero, hd] at h
      exact Option.noConfusion h
    · intro outF h
      simp only [assign_crew_time, hd] at h
      exact Option.noConfusion h
  | some dist =>
    obtain ⟨hp1, hs1⟩ := distBounds position dist hd
    constructor
    · intro outA h
      simp only [assign_crew_time_aero, hd, Option.some.injEq] at h
      subst h
      exact ⟨min_le_right _ _, min_le_right _ _⟩
    · intro outF h
      simp only [assign_crew_time, hd] at h
      cases hoe : oe_data (flightKeySimple row) with
      | none =>
        rw [hoe] at h
        simp only [Option.some.injEq] at h
        subst h
        refine ⟨fun _ => ⟨?_, ?_⟩, ?_, ?_⟩
        · exact mul_le_of_le_one_right hb hp1
        · exact mul_le_of_le_one_right hb hs1
        · intro e p h1 h2
          exact Option.noConfusion h1
        · intro e s h1 h2
          exact Option.noConfusion h1
      | some e0 =>
        rw [hoe] at h
        simp only [Option.some.injEq] at h
        subst h
        refine ⟨fun hn => Option.noConfusion hn, ?_, ?_⟩
        · intro e p h1 h2
          have he : e0 = e := Option.some.inj h1
          subst he
          simp [h2]
        · intro e s h1 h2
          have he : e0 = e := Option.some.inj h1
          subst he
          simp [h2]

theorem c2baseEval :
    assign_crew_time c2row "first_officer" (fun _ => none) = some ⟨0, 5, 3, 5⟩ := by
  have hdist : CREW_POSITION_DISTRIBUTION "first_officer" = some ⟨0, 1, 1⟩ := by
    decide
  unfold assign_crew_time
  rw [hdist]
  norm_num [c2row, safe_float_conversion]

/-- C2 witness: the format.py base computation on the five-block-hour flight
without an OE entry stays within the caps. -/
theorem crew_time_caps_witness :
    (⟨0, 5, 3, 5⟩ : CrewOut).PIC ≤ safe_float_conversion c2row.BLK_HRS ∧
    (⟨0, 5, 3, 5⟩ : CrewOut).SIC ≤ safe_float_conversion c2row.BLK_HRS :=
  ((crew_time_caps c2row "first_officer" (fun _ => none)
      (by norm_num [c2row, safe_float_conversion])).2
    ⟨0, 5, 3, 5⟩ c2baseEval).1 rfl

/-- C5: a flight whose LANDING cell does not mark the crew member's landing
gets zero landings and zero takeoffs regardless of solar geometry; a flight
whose LANDING cell does mark it gets exactly one landing (day or night,
never both, never neither) and exactly one takeoff likewise. -/
theorem landing_takeoff_classification (env : Env) (row : Row) :
    (landingPerformed row.LANDING = false →
      process_landings env row = (0, 0) ∧ process_takeoffs env row = (0, 0)) ∧
    (landingPerformed row.LANDING = true →
      (process_landings env row = (1, 0) ∨ process_landings env row = (0, 1)) ∧
      (process_takeoffs env row = (1, 0) ∨ process_takeoffs env row = (0, 1))) := by
  constructor
  · intro h
    constructor
    · unfold process_landings
      rw [if_neg (by simp [h])]
    · unfold process_takeoffs
      rw [if_neg (by simp [h])]
  · intro h
    constructor
    · unfold process_landings
      rw [if_pos h]
      cases hb : is_night_landing env (parse_time env row.DEPT_DATE row.ON) row.DEST with
      | none => exact Or.inl rfl
      | some b =>
        cases b
        · exact Or.inl rfl
        · exact Or.inr rfl
    · unfold process_takeoffs
      rw [if_pos h]
      cases hb : is_night_time env (parse_time_aero env row.DEPT_DATE row.OFF) row.ORG with
      | none => exact Or.inl rfl
      | some b =>
        cases b
        · exact Or.inl rfl
        · exact Or.inr rfl

/-- The all-night flight with the LANDING cell set. -/
def c5row : Row :=
  ⟨"06/01/2024", "AAA", "BBB", .str "23:00", .str "23:30", .num 1,
   .num 1, .num 1, .str "1"⟩

/-- C5 witness: the performed-landing case on a concrete flight. -/
theorem landing_takeoff_classification_witness :
    (process_landings simpleEnv c5row = (1, 0) ∨
      process_landings simpleEnv c5row = (0, 1)) ∧
    (process_takeoffs simpleEnv c5row = (1, 0) ∨
      process_takeoffs simpleEnv c5row = (0, 1)) :=
  (landing_takeoff_classification simpleEnv c5row).2 (by decide)

/-- C6: with the airport resolved and the solar calculation succeeding, an
instant is classified night exactly when it is at or past sunset plus the
30-minute civil twilight, or at or before sunrise; a failed airport
resolution classifies the event day (false); and a failed solar calculation,
which is_night_landing propagates, makes process_landings default the
performed landing to a day landing rather than fail. -/
theorem night_event_classification (env : Env) (t : ℚ) (code : String) :
    (get_airport_data env code = none → is_night_landing env t code = some false) ∧
    (∀ a, get_airport_data env code = some a →
      (env.sun a.lat a.lon (Int.floor (t / 1440)) a.tz = none →
        is_night_landing env t code = none) ∧
      (∀ sr ss, env.sun a.lat a.lon (Int.floor (t / 1440)) a.tz = some (sr, ss) →
        is_night_landing env t code = some (decide (ss + 30 ≤ t ∨ t ≤ sr)))) ∧
    (∀ row : Row, landingPerformed row.LANDING = true →
      is_night_landing env (parse_time env row.DEPT_DATE row.ON) row.DEST = none →
      process_landings env row = (1, 0)) := by
  refine ⟨?_, ?_, ?_⟩
  · intro h
    simp only [is_night_landing, h]
  · intro a ha
    constructor
    · intro hs
      simp only [is_night_landing, ha, hs]
    · intro sr ss hs
      simp only [is_night_landing, ha, hs]
  · intro row h hnone
    unfold process_landings
    rw [if_pos h, hnone]

/-- C6 witness: the classification rule evaluated at landing instant 1380
with sunrise 300 and sunset 1200. -/
theorem night_event_classification_witness :
    is_night_landing simpleEnv 1380 "BBB" =
      some (decide ((1200 : ℚ) + 30 ≤ 1380 ∨ (1380 : ℚ) ≤ 300)) :=
  ((night_event_classification simpleEnv 1380 "BBB").2.1
    ⟨"Apt", "UTC", 0, 0⟩ (by decide)).2 300 1200 rfl

/-- C7: parse_time is total (it returns an instant for every input, never
raising) and follows the documented fallback chain: a missing, empty,
literal-dot or non-string time value is replaced by noon before parsing;
when the combined date-and-time parse succeeds its value is returned; when
it fails, the date at noon is tried; when that also fails, the current
wall-clock instant is returned. -/
theorem parse_time_fallback_chain (env : Env) (d : String) (t : PyVal) :
    (badTimeVal t = true →
      parse_time env d t =
        match env.strptime "%m/%d/%Y %H:%M" (d ++ " " ++ "12:00") with
        | some i => i
        | none =>
          match env.strptime "%m/%d/%Y %H:%M" (d ++ " 12:00") with
          | some j => j
          | none => env.now) ∧
    (∀ i, env.strptime "%m/%d/%Y %H:%M"
        (d ++ " " ++ (if badTimeVal t then "12:00" else pyStrOf t)) = some i →
      parse_time env d t = i) ∧
    (env.strptime "%m/%d/%Y %H:%M"
        (d ++ " " ++ (if badTimeVal t then "12:00" else pyStrOf t)) = none →
      ∀ j, env.strptime "%m/%d/%Y %H:%M" (d ++ " 12:00") = some j →
        parse_time env d t = j) ∧
    (env.strptime "%m/%d/%Y %H:%M"
        (d ++ " " ++ (if badTimeVal t then "12:00" else pyStrOf t)) = none →
      env.strptime "%m/%d/%Y %H:%M" (d ++ " 12:00") = none →
      parse_time env d t = env.now) := by
  refine ⟨?_, ?_, ?_, ?_⟩
  · intro hb
    simp only [parse_time, hb, if_true]
  · intro i hi
    simp only [parse_time, hi]
  · intro hn j hj
    simp only [parse_time, hn, hj]
  · intro hn hn2
    simp only [parse_time, hn, hn2]

/-- C7 witness: the combined parse succeeding on a well-formed date and
time. -/
theorem parse_time_fallback_chain_witness :
    parse_time simpleEnv "06/01/2024" (.str "23:00") = 1380 :=
  (parse_time_fallback_chain simpleEnv "06/01/2024" (.str "23:00")).2.1
    1380 (by decide)

/-- C9: the per-row engine is deterministic: two runs on equal flight
records, equal positions, equal OE data and an equal environment (which
carries the single value of now consumed by the timezone-difference
computation and the time-parser date fallback) produce equal night time,
landing and takeoff classifications and crew times. -/
theorem engine_deterministic (env1 env2 : Env) (row1 row2 : Row)
    (pos1 pos2 : String) (oe1 oe2 : String → Option OeEntry)
    (henv : env1 = env2) (hrow : row1 = row2) (hpos : pos1 = pos2)
    (hoe : oe1 = oe2) :
    processRow env1 row1 pos1 oe1 = processRow env2 row2 pos2 oe2 := by
  subst henv
  subst hrow
  subst hpos
  subst hoe
  rfl

/-- C9 witness: two identical runs on the concrete flight agree. -/
theorem engine_deterministic_witness :
    processRow simpleEnv c1row "captain" (fun _ => none) =
      processRow simpleEnv c1row "captain" (fun _ => none) :=
  engine_deterministic simpleEnv simpleEnv c1row c1row "captain" "captain"
    (fun _ => none) (fun _ => none) rfl rfl rfl rfl

/-- An OE file with ROLE, PIC_OE and SIC_OE columns but no SEAT column. -/
def c10cexCols : OeCols := ⟨false, true, true, true, false, false⟩

/-- An OE row taking the ROLE-based path with ROLE PIC and PIC_OE 0. -/
def c10cexRow : OeRow :=
  ⟨.str "1", .pynone, .str "PIC", .num 0, .num 0, .num 0, .num 0⟩

/-- The OE table carrying the explicit zero override the ROLE path builds
for flight 0012. -/
def c10oe (fid : String) : Option OeEntry :=
  if fid = "0012" then some ⟨"captain", some 0, some 0⟩ else none

/-- C10 counterexample: in the ROLE-based path of load_oe_data the converted
override value is recorded unconditionally, without the positivity guard of
the SEAT-based path.  A ROLE PIC row with PIC_OE 0 is stored as an explicit
zero override (not as absent), and apportionment then substitutes 0 for the
captain's five block hours, zeroing out the crew member's time. -/
theorem oe_zero_override_cex :
    oe_flight_data c10cexCols c10cexRow = ⟨"captain", some 0, some 0⟩ ∧
    (oe_flight_data c10cexCols c10cexRow).pic_time ≠ none ∧
    assign_crew_time c2row "captain" c10oe = some ⟨0, 0, 3, 5⟩ ∧
    safe_float_conversion c2row.BLK_HRS = 5 := by
  have h1 : oe_flight_data c10cexCols c10cexRow = ⟨"captain", some 0, some 0⟩ := by
    decide
  refine ⟨h1, by rw [h1]; simp, ?_, by norm_num [c2row, safe_float_conversion]⟩
  have hdist : CREW_POSITION_DISTRIBUTION "captain" = some ⟨1, 0, 1⟩ := by decide
  have hkey : flightKeySimple c2row = "0012" := by decide
  unfold assign_crew_time
  rw [hdist, hkey]
  norm_num [c10oe, c2row, safe_float_conversion]

/-- C10 (amended): in the SEAT-based path of load_oe_data, an override hour
value for the seat's own role that converts to zero or a negative number is
recorded as absent, so apportionment falls back to the base value: a
captain-family or relief-captain row only ever stores a strictly positive
pic override, a first-officer or relief-first-officer row only a strictly
positive sic override, and an unrecognized seat only a strictly positive pic
override through the final fallback.  In the ROLE-based path the converted
value is recorded unconditionally, so a zero supplied there does zero out
the crew member's time (the counterexample). -/
theorem oe_seat_overrides_positive (cols : OeCols) (r : OeRow)
    (hseat : cols.hasSEAT = true) :
    (isCaptSeat (seatStr r) = true →
      ∀ p, (oe_flight_data cols r).pic_time = some p → 0 < p) ∧
    (isCaptSeat (seatStr r) = false → isFOSeat (seatStr r) = true →
      ∀ s, (oe_flight_data cols r).sic_time = some s → 0 < s) ∧
    (isCaptSeat (seatStr r) = false → isFOSeat (seatStr r) = false →
      isRFOSeat (seatStr r) = true →
      ∀ s, (oe_flight_data cols r).sic_time = some s → 0 < s) ∧
    (isCaptSeat (seatStr r) = false → isFOSeat (seatStr r) = false →
      isRFOSeat (seatStr r) = false → isRCSeat (seatStr r) = true →
      ∀ p, (oe_flight_data cols r).pic_time = some p → 0 < p) ∧
    (isCaptSeat (seatStr r) = false → isFOSeat (seatStr r) = false →
      isRFOSeat (seatStr r) = false → isRCSeat (seatStr r) = false →
      ∀ p, (oe_flight_data cols r).pic_time = some p → 0 < p) := by
  refine ⟨?_, ?_, ?_, ?_, ?_⟩
  · intro hc p h
    by_cases hP : cols.hasPIC_OE
    · simp only [oe_flight_data, hseat, hc, hP] at h
      simp at h
      obtain ⟨h0, h1⟩ := h
      subst h1
      exact h0
    · simp only [oe_flight_data, hseat, hc] at h
      simp [hP] at h
  · intro hc hf s h
    by_cases hS : cols.hasSIC_OE
    · simp only [oe_flight_data, hseat, hc, hf, hS] at h
      simp at h
      obtain ⟨h0, h1⟩ := h
      subst h1
      exact h0
    · simp only [oe_flight_data, hseat, hc, hf] at h
      simp [hS] at h
  · intro hc hf hr s h
    by_cases hS : cols.hasSIC_RFO_OE
    · simp only [oe_flight_data, hseat, hc, hf, hr, hS] at h
      simp at h
      obtain ⟨h0, h1⟩ := h
      subst h1
      exact h0
    · simp only [oe_flight_data, hseat, hc, hf, hr] at h
      simp [hS] at h
  · intro hc hf hr hrc p h
    by_cases hP : cols.hasPIC_RFO_OE
    · simp only [oe_flight_data, hseat, hc, hf, hr, hrc, hP] at h
      simp at h
      obtain ⟨h0, h1⟩ := h
      subst h1
      exact h0
    · simp only [oe_flight_data, hseat, hc, hf, hr, hrc] at h
      simp [hP] at h
  · intro hc hf hr hrc p h
    by_cases hP : cols.hasPIC_OE
    · simp only [oe_flight_data, hseat, hc, hf, hr, hrc, hP] at h
      simp at h
      split at h
      · simp at h
        obtain ⟨h0, h1⟩ := And.intro (by assumption : 0 < safe_float_conversion (getCol true r.PIC_OE (PyVal.num 0))) h
        subst h1
        exact h0
      · simp at h
    · simp only [oe_flight_data, hseat, hc, hf, hr, hrc] at h
      simp [hP] at h

/-- An OE file with every column. -/
def c10wCols : OeCols := ⟨true, false, true, true, true, true⟩

/-- A captain-seat OE row with three PIC hours. -/
def c10wRow : OeRow :=
  ⟨.str "1", .str "CAPT", .pynone, .num 3, .num 0, .num 0, .num 0⟩

theorem c10wEval : oe_flight_data c10wCols c10wRow = ⟨"captain", some 3, some 0⟩ := by
  decide

/-- C10 witness: a captain-seat row with PIC_OE 3 stores a strictly positive
override. -/
theorem oe_seat_overrides_positive_witness : (0 : ℚ) < 3 :=
  (oe_seat_overrides_positive c10wCols c10wRow rfl).1 (by decide) 3
    (by rw [c10wEval])

end Logbook
